import Mathlib

/-!
Verification development for the DPWH flood-control analytics repository.

The repository implements one data-analysis pipeline several times (a full
Kotlin pipeline with ingestion bookkeeping and three reports, an earlier
simpler Kotlin draft, and JavaScript variants).  The definitions below are a
shallow embedding of the relevant functions, translated from the source:

  * money amounts and all derived statistics are modelled as rationals
    (the source uses binary doubles; none of the claims depend on binary
    rounding, and the non-finite double values NaN/Infinity are modelled
    as `none` of an `Option`);
  * calendar dates are modelled as an abstract integer day index; the
    claims depend only on the presence or absence of a date and on day
    differences of directly constructed records;
  * the CSV line splitter (a regex that respects quoted delimiters) is an
    external parsing concern: a raw line enters the model either as blank
    or as its already-split field list.

Kotlin-side definitions are prefixed `kotlin` or keep the source name;
JavaScript-side definitions are prefixed `js`.
-/

/-- Clamp `x` into `[lo, hi]`; models Kotlin `x.coerceIn(lo, hi)`. -/
def coerceIn (x lo hi : ℚ) : ℚ := max lo (min hi x)

/-- Digit value of a character, `none` when it is not a decimal digit. -/
def digitVal? (c : Char) : Option ℕ := if c.isDigit then some (c.toNat - 48) else none

/-- Value of a nonempty all-digit character list, `none` otherwise. -/
def digitsVal (cs : List Char) : Option ℕ :=
  if cs.isEmpty then none
  else cs.foldl (fun acc c =>
    match acc, digitVal? c with
    | some n, some d => some (n * 10 + d)
    | _, _ => none) (some 0)

/-- Unsigned decimal literal: digits with an optional fractional part. -/
def parseUnsignedDec (cs : List Char) : Option ℚ :=
  let intPart := cs.takeWhile (fun c => decide (c ≠ '.'))
  match cs.dropWhile (fun c => decide (c ≠ '.')) with
  | [] => (digitsVal intPart).map (fun n => (n : ℚ))
  | _ :: frac =>
    match digitsVal intPart, digitsVal frac with
    | some i, some f => some ((i : ℚ) + (f : ℚ) / (10 : ℚ) ^ frac.length)
    | _, _ => none

/-- Model of Kotlin `String.toDoubleOrNull` on the plain decimal fragment
(optional sign, digits, optional fraction).  Exponent, hexadecimal and
`Infinity`/`NaN` spellings are outside the fragment the data uses; the
claims depend only on whether a field parses, which is a hypothesis of the
theorems below, not a property of this fragment choice. -/
def toDoubleOrNull (s : String) : Option ℚ :=
  match s.data with
  | [] => none
  | '-' :: rest => (parseUnsignedDec rest).map (fun q => -q)
  | '+' :: rest => parseUnsignedDec rest
  | cs => parseUnsignedDec cs

/-- Model of Kotlin `String.toIntOrNull`: optional sign and digits. -/
def toIntOrNull (s : String) : Option ℤ :=
  match s.data with
  | [] => none
  | '-' :: rest => (digitsVal rest).map (fun n => -(n : ℤ))
  | '+' :: rest => (digitsVal rest).map (fun n => (n : ℤ))
  | cs => (digitsVal cs).map (fun n => (n : ℤ))

/-- Model of Kotlin `String.isBlank`. -/
def isBlankStr (s : String) : Bool := s.data.all (fun c => decide (c = ' ' ∨ c = '\t'))

/-- Model of Kotlin `String.replace(",", "")` used to strip thousands
separators from the monetary fields. -/
def stripCommas (s : String) : String := ⟨s.data.filter (fun c => decide (c ≠ ','))⟩

/-- Model of the source's `String.toDateOrNull` (strict ISO `YYYY-MM-DD`,
blank or unparseable gives `null`).  A valid date is mapped to an abstract
day index; calendar fine structure (month lengths, leap years) is
simplified, as the claims depend only on date presence. -/
def toDateOrNull (s : String) : Option ℤ :=
  if isBlankStr s then none
  else
    match s.data with
    | [y1, y2, y3, y4, '-', m1, m2, '-', d1, d2] =>
      match digitsVal [y1, y2, y3, y4], digitsVal [m1, m2], digitsVal [d1, d2] with
      | some y, some m, some d =>
        if 1 ≤ m ∧ m ≤ 12 ∧ 1 ≤ d ∧ d ≤ 31 then
          some ((y : ℤ) * 372 + ((m : ℤ) - 1) * 31 + ((d : ℤ) - 1))
        else none
      | _, _, _ => none
    | _ => none

/-- Model of Kotlin `List<Double>.average()`: the mean, except that the
average of an empty list is `NaN`, modelled as `none`. -/
def kotlinAverage (xs : List ℚ) : Option ℚ :=
  if xs = [] then none else some (xs.sum / (xs.length : ℚ))

/-- The Kotlin `List<Double>.median()` extension (part_000 lines 141-152):
`0.0` on the empty list, the middle element of the ascending-sorted list for
an odd size, the mean of the two middle elements for an even size. -/
def kotlinMedian (xs : List ℚ) : ℚ :=
  if xs = [] then 0
  else
    let sorted := xs.insertionSort (· ≤ ·)
    let size := sorted.length
    if size % 2 = 1 then sorted.getD (size / 2) 0
    else (sorted.getD (size / 2 - 1) 0 + sorted.getD (size / 2) 0) / 2

/-- The JavaScript `costSavingsMedian` (part_001 lines 229-238).  It does
not sort; for an even size it averages the elements at indices `n/2` and
`n/2 + 1`.  An out-of-bounds JavaScript index yields `undefined` and the
subsequent arithmetic yields `NaN`, modelled as `none`. -/
def costSavingsMedian (dataSet : List ℚ) : Option ℚ :=
  let dataSize := dataSet.length
  if dataSize % 2 = 0 then
    match dataSet[dataSize / 2]?, dataSet[dataSize / 2 + 1]? with
    | some a, some b => some ((a + b) / 2)
    | _, _ => none
  else
    dataSet[dataSize / 2]?

/-- First-occurrence deduplication: the distinct keys of a list in the
order Kotlin `groupBy` / `distinct()` and the JavaScript
`Array.from(new Set(...))` produce them. -/
def dedupFirst {κ : Type} [DecidableEq κ] (l : List κ) : List κ :=
  l.foldl (fun acc k => if k ∈ acc then acc else acc ++ [k]) []

/-- Model of Kotlin `groupBy` (and the manual JavaScript grouping): the
keys in first-occurrence order, each paired with the sublist of elements
having that key, in order. -/
def groupByKey {α κ : Type} [DecidableEq κ] (key : α → κ) (l : List α) :
    List (κ × List α) :=
  (dedupFirst (l.map key)).map (fun k => (k, l.filter (fun a => decide (key a = k))))

/-- The central record type of the full Kotlin pipeline (part_000
lines 156-185). -/
structure FloodProject where
  projectId : String
  contractCost : ℚ
  approvedBudget : ℚ
  startDate : Option ℤ
  completionDate : Option ℤ
  fundingYear : Option ℤ
  region : String
  mainIsland : String
  contractorName : String
  typeOfWork : String
deriving DecidableEq

/-- Derived field `costSavings = approvedBudget - contractCost`. -/
def costSavings (p : FloodProject) : ℚ := p.approvedBudget - p.contractCost

/-- Derived field `completionDelayDays`: days between start and completion
when both dates are present, absent otherwise. -/
def completionDelayDays (p : FloodProject) : Option ℤ :=
  match p.startDate, p.completionDate with
  | some s, some c => some (c - s)
  | _, _ => none

/-- A record has completion data. -/
def hasDelay (p : FloodProject) : Bool := (completionDelayDays p).isSome

/-- The delay of a delay-present record as a rational
(`completionDelayDays!!.toDouble()`; the `getD 0` default is a totality
artifact, only exercised on delay-present records). -/
def delayQ (p : FloodProject) : ℚ := (((completionDelayDays p).getD 0 : ℤ) : ℚ)

/-- A raw CSV line after the external splitter: blank, or its field list. -/
inductive CsvLine where
  | blank : CsvLine
  | row : List String → CsvLine
deriving DecidableEq

/-- Running state of the ingestion loop of the full pipeline. -/
structure IngestState where
  projects : List FloodProject
  errorRowCount : ℕ
deriving DecidableEq

/-- Record construction of the full pipeline (part_000 lines 242-285) from
a row of at least 17 fields with already-parsed monetary values.  Column
indices and the `getOrElse` defaults are the source's. -/
def mkFloodProject (fields : List String) (approvedBudget contractCost : ℚ) :
    FloodProject :=
  { projectId := fields.getD 6 ""
    approvedBudget := approvedBudget
    contractCost := contractCost
    startDate := toDateOrNull (fields.getD 16 "")
    completionDate := toDateOrNull (fields.getD 13 "")
    fundingYear := toIntOrNull (fields.getD 9 "")
    region := fields.getD 1 "N/A Region"
    mainIsland := fields.getD 0 "N/A Island"
    contractorName := fields.getD 14 "N/A Contractor"
    typeOfWork := fields.getD 8 "N/A Work Type" }

/-- One iteration of the ingestion loop of the full Kotlin pipeline
(part_000 lines 229-290): skip blank lines; reject rows with fewer than 17
columns; strip commas from the two monetary fields and parse them strictly,
rejecting the whole row when either fails; otherwise accept the record. -/
def processLine (st : IngestState) : CsvLine → IngestState
  | CsvLine.blank => st
  | CsvLine.row fields =>
    if fields.length < 17 then { st with errorRowCount := st.errorRowCount + 1 }
    else
      match toDoubleOrNull (stripCommas (fields.getD 11 "")),
            toDoubleOrNull (stripCommas (fields.getD 12 "")) with
      | some approvedBudget, some contractCost =>
        { st with projects := st.projects ++ [mkFloodProject fields approvedBudget contractCost] }
      | _, _ => { st with errorRowCount := st.errorRowCount + 1 }

/-- Result of ingestion (part_000 lines 190-194). -/
structure IngestionResult where
  projects : List FloodProject
  totalRowsRead : ℕ
  errorRowCount : ℕ
deriving DecidableEq

/-- The full-pipeline `readProjectsFromFile` (part_000 lines 196-293) on an
already-read list of lines: with at most a header nothing is read, else the
header is dropped, `totalRowsRead` is the line count minus the header, and
the loop above processes each data line. -/
def readProjectsFromFile (lines : List CsvLine) : IngestionResult :=
  if lines.length ≤ 1 then ⟨[], 0, 0⟩
  else
    let final := (lines.drop 1).foldl processLine ⟨[], 0⟩
    ⟨final.projects, lines.length - 1, final.errorRowCount⟩

/-- The record type of the first-version Kotlin draft (part_000
lines 29-38). -/
structure FloodProjectV1 where
  projectId : String
  contractCost : ℚ
  approvedBudget : ℚ
  startDate : Option ℤ
  completionDate : Option ℤ
deriving DecidableEq

/-- One iteration of the first-version Kotlin ingestion loop (part_000
lines 62-92): no rejection counter, no comma stripping, and an unparseable
monetary field is replaced by `0.0` via `toDoubleOrNull() ?: 0.0`
(lines 74-75), the row still being accepted. -/
def processLineV1 (projects : List FloodProjectV1) : CsvLine → List FloodProjectV1
  | CsvLine.blank => projects
  | CsvLine.row fields =>
    if fields.length < 17 then projects
    else
      projects ++ [{ projectId := fields.getD 6 ""
                     approvedBudget := (toDoubleOrNull (fields.getD 11 "")).getD 0
                     contractCost := (toDoubleOrNull (fields.getD 12 "")).getD 0
                     startDate := toDateOrNull (fields.getD 16 "")
                     completionDate := toDateOrNull (fields.getD 13 "") }]

/-- `filterProjectsByYear` (part_000 lines 300-306): keep records whose
funding year is present and inside the inclusive range. -/
def filterProjectsByYear (projects : List FloodProject) (startYear endYear : ℤ) :
    List FloodProject :=
  projects.filter (fun p =>
    match p.fundingYear with
    | some y => decide (startYear ≤ y ∧ y ≤ endYear)
    | none => false)

/-- The year admission check of `loadFileSync` in MCO2_JavaScript.js
(line 55): a row is skipped only when `Number(data.FundingYear) === 2024`.
`none` models the `NaN` produced by `Number` on non-numeric text, which is
not `=== 2024` and is therefore admitted. -/
def jsYearKept (fundingYearNum : Option ℤ) : Bool := !(fundingYearNum == some 2024)

/-- Number of blank lines in a list of raw lines. -/
def countBlank (lines : List CsvLine) : ℕ :=
  lines.countP (fun l => match l with | CsvLine.blank => true | CsvLine.row _ => false)

/-- Per-group metrics of the regional efficiency report. -/
structure RegionMetrics where
  totalBudget : ℚ
  medianSavings : ℚ
  averageDelay : ℚ
  highDelayPct : ℚ
  efficiencyScore : ℚ
deriving DecidableEq

/-- The efficiency-score `when` expression of the full Kotlin pipeline
(part_000 lines 400-411): a non-positive average delay gives 100 for
positive median savings and 0 otherwise; else the ratio is scaled by 100
and clamped into `[0, 100]`. -/
def kotlinEfficiencyScore (medianSavings averageDelay : ℚ) : ℚ :=
  if averageDelay ≤ 0 then (if 0 < medianSavings then 100 else 0)
  else coerceIn ((medianSavings / averageDelay) * 100) 0 100

/-- The JavaScript `EfficiencyScore` (part_001 lines 253-255): the bare
ratio scaled by 100, with no clamp and no zero-delay special case.  `none`
models the non-finite result of dividing by an average delay of 0. -/
def jsEfficiencyScore (medianCostSavings averageDelay : ℚ) : Option ℚ :=
  if averageDelay = 0 then none
  else some ((medianCostSavings / averageDelay) * 100)

/-- The per-group metric computation of the regional report (part_000
lines 384-419).  The group a `groupBy` produces is nonempty and (because
the pipeline filters first) delay-present, so `average()` never sees an
empty list; the `getD 0` default is a totality artifact. -/
def regionMetrics (regionalProjects : List FloodProject) : RegionMetrics :=
  let totalBudget := (regionalProjects.map (fun p => p.approvedBudget)).sum
  let medianSavings := kotlinMedian (regionalProjects.map costSavings)
  let completedProjectsWithDelay := regionalProjects.filter hasDelay
  let averageDelay := (kotlinAverage (completedProjectsWithDelay.map delayQ)).getD 0
  let highDelayCount :=
    completedProjectsWithDelay.countP (fun p => decide (30 < (completionDelayDays p).getD 0))
  let highDelayPct :=
    if completedProjectsWithDelay.isEmpty then 0
    else ((highDelayCount : ℚ) / (completedProjectsWithDelay.length : ℚ)) * 100
  { totalBudget := totalBudget
    medianSavings := medianSavings
    averageDelay := averageDelay
    highDelayPct := highDelayPct
    efficiencyScore := kotlinEfficiencyScore medianSavings averageDelay }

/-- The grouped data of `generateRegionalEfficiencyReport` (part_000
lines 381-420): records with completion data, grouped by
(region, mainIsland), each group mapped to its metrics. -/
def regionalGroupedData (projects : List FloodProject) :
    List ((String × String) × RegionMetrics) :=
  (groupByKey (fun p => (p.region, p.mainIsland)) (projects.filter hasDelay)).map
    (fun kg => (kg.1, regionMetrics kg.2))

/-- The regional report rows (part_000 lines 423-424): the grouped data
sorted by efficiency score, descending. -/
def generateRegionalEfficiencyReport (projects : List FloodProject) :
    List ((String × String) × RegionMetrics) :=
  (regionalGroupedData projects).insertionSort
    (fun a b => b.2.efficiencyScore ≤ a.2.efficiencyScore)

/-- Kotlin delay factor (part_000 line 500):
`1.0 - (averageDelay / 90.0).coerceIn(0.0, 1.0)`. -/
def kotlinDelayFactor (averageDelay : ℚ) : ℚ := 1 - coerceIn (averageDelay / 90) 0 1

/-- Kotlin savings factor (part_000 line 501). -/
def kotlinSavingsFactor (totalSavings totalCost : ℚ) : ℚ :=
  if 0 < totalCost then totalSavings / totalCost else 0

/-- Per-contractor metrics of the ranking report. -/
structure ContractorMetrics where
  totalCost : ℚ
  numProjects : ℕ
  averageDelay : ℚ
  totalSavings : ℚ
  reliabilityIndex : ℚ
  riskFlag : String
deriving DecidableEq

/-- The per-contractor computation of `generateContractorRankingReport`
(part_000 lines 488-516): groups below the minimum project count map to
`null`; surviving groups get their totals, average delay, the clamped
reliability index and a risk flag. -/
def contractorMetrics (minProjects : ℕ) (contractorProjects : List FloodProject) :
    Option ContractorMetrics :=
  let numProjects := contractorProjects.length
  let totalCost := (contractorProjects.map (fun p => p.contractCost)).sum
  if numProjects < minProjects then none
  else
    let totalSavings := (contractorProjects.map costSavings).sum
    let averageDelay := (kotlinAverage (contractorProjects.map delayQ)).getD 0
    let delayFactor := kotlinDelayFactor averageDelay
    let savingsFactor := kotlinSavingsFactor totalSavings totalCost
    let reliabilityIndex := coerceIn (delayFactor * savingsFactor * 100) 0 100
    let riskFlag := if reliabilityIndex < 50 then "High Risk" else "Low Risk"
    some ⟨totalCost, numProjects, averageDelay, totalSavings, reliabilityIndex, riskFlag⟩

/-- `generateContractorRankingReport` (part_000 lines 481-522) up to the
ranked rows: delay-present records grouped by contractor, groups below the
threshold dropped, survivors sorted by total cost descending, top N kept. -/
def generateContractorRankingReport (projects : List FloodProject)
    (topN minProjects : ℕ) : List (String × ContractorMetrics) :=
  let completedProjects := projects.filter hasDelay
  let groupedData :=
    (groupByKey (fun p => p.contractorName) completedProjects).filterMap
      (fun kg => (contractorMetrics minProjects kg.2).map (fun m => (kg.1, m)))
  (groupedData.insertionSort (fun a b => b.2.totalCost ≤ a.2.totalCost)).take topN

/-- The JavaScript contractor threshold (part_001 lines 303-307): the
report row is spliced out when `TotalProjects <= 5`, so only groups with
more than 5 projects are kept. -/
def jsContractorKept (totalProjects : ℕ) : Bool := decide (¬ (totalProjects ≤ 5))

/-- The JavaScript reliability computation (part_001 lines 345-357):
`(1 - avg/90) * (savings/cost) * 100`, with only an upper cap at 100 — no
lower bound and no clamping of the delay factor.  `none` models the
non-finite value produced when the accumulated contract cost is 0. -/
def jsReliabilityIndex (averageDelay totalSavings totalCost : ℚ) : Option ℚ :=
  if totalCost = 0 then none
  else
    let raw := (1 - averageDelay / 90) * (totalSavings / totalCost) * 100
    some (if 100 < raw then 100 else raw)

/-- Per-(year, typeOfWork) metrics of the annual trends report. -/
structure TrendMetrics where
  totalProjects : ℕ
  avgSavings : ℚ
  overrunRate : ℚ
deriving DecidableEq

/-- The per-group computation of `generateAnnualTrendsReport` (part_000
lines 586-599).  Groups are nonempty, so the `getD 0` after `average()` is
a totality artifact. -/
def trendMetrics (workProjects : List FloodProject) : TrendMetrics :=
  let totalProjects := workProjects.length
  let avgSavings := (kotlinAverage (workProjects.map costSavings)).getD 0
  let overrunCount := workProjects.countP (fun p => decide (costSavings p < 0))
  { totalProjects := totalProjects
    avgSavings := avgSavings
    overrunRate := ((overrunCount : ℚ) / (totalProjects : ℚ)) * 100 }

/-- The grouped data of the annual trends report (part_000 lines 583-599):
records with a present funding year, grouped by (fundingYear, typeOfWork).
On the filtered records the `getD 0` in the key equals `fundingYear!!`. -/
def annualGroupedData (projects : List FloodProject) :
    List ((ℤ × String) × TrendMetrics) :=
  (groupByKey (fun p => ((p.fundingYear).getD 0, p.typeOfWork))
      (projects.filter (fun p => (p.fundingYear).isSome))).map
    (fun kg => (kg.1, trendMetrics kg.2))

/-- The 2021 baselines (part_000 line 605): the average savings of the
2021 group of a work type, when one exists.  `groupBy` keys are distinct,
so the `associate` map of the source is a first-match lookup. -/
def yearBaselines (groupedData : List ((ℤ × String) × TrendMetrics))
    (typeOfWork : String) : Option ℚ :=
  ((groupedData.filter (fun kg => decide (kg.1.1 = 2021))).find?
      (fun kg => decide (kg.1.2 = typeOfWork))).map (fun kg => kg.2.avgSavings)

/-- The year-over-year change of the full Kotlin pipeline (part_000
lines 607-624): `0.0` unless the year is after 2021 and a nonzero 2021
baseline for the work type exists, in which case it is the relative change
against that baseline, scaled by 100. -/
def kotlinYoyChange (baselines : String → Option ℚ) (year : ℤ)
    (typeOfWork : String) (currentAvg : ℚ) : ℚ :=
  if 2021 < year then
    match baselines typeOfWork with
    | some baselineAvg =>
      if baselineAvg ≠ 0 then ((currentAvg - baselineAvg) / |baselineAvg|) * 100 else 0
    | none => 0
  else 0

/-- A row of the JavaScript report 3 before the YoY pass. -/
structure JsTrendRow where
  fundingYear : ℤ
  typeOfWork : String
  averageCostSavings : ℚ
deriving DecidableEq

/-- The YoY pass of the JavaScript report 3 (part_001 lines 417-427).  The
`YoYChange` property is assigned only when a 2021 baseline row with the
same work type exists and its average savings is nonzero; otherwise the row
keeps no `YoYChange` at all, modelled as `none`. -/
def jsYoYChange (report3Rows : List JsTrendRow) (entry : JsTrendRow) : Option ℚ :=
  let baseline := report3Rows.filter (fun r => decide (r.fundingYear = 2021))
  match baseline.find? (fun b => decide (b.typeOfWork = entry.typeOfWork)) with
  | some base =>
    if base.averageCostSavings ≠ 0 then
      some (((entry.averageCostSavings - base.averageCostSavings)
              / |base.averageCostSavings|) * 100)
    else none
  | none => none

/-- Output of `generateSummaryJson`. -/
structure SummaryData where
  totalProjectsRead : ℕ
  totalProjectsAnalyzed : ℕ
  totalUniqueContractors : ℕ
  totalUniqueRegions : ℕ
  globalAvgDelay : Option ℚ
  totalSavingsAnalyzed : ℚ
deriving DecidableEq

/-- `generateSummaryJson` (part_000 lines 684-704).  `globalAvgDelay` is
`average()` over the delay-present subset of the filtered records: `none`
models the `NaN` that Kotlin's `average()` returns on an empty list and
that the sink prints for the `global_avg_delay` field. -/
def generateSummaryJson (allProjects filteredProjects : List FloodProject) :
    SummaryData :=
  let completedProjects := filteredProjects.filter hasDelay
  { totalProjectsRead := allProjects.length
    totalProjectsAnalyzed := filteredProjects.length
    totalUniqueContractors := (dedupFirst (filteredProjects.map (fun p => p.contractorName))).length
    totalUniqueRegions := (dedupFirst (filteredProjects.map (fun p => p.region))).length
    globalAvgDelay := kotlinAverage (completedProjects.map delayQ)
    totalSavingsAnalyzed := (filteredProjects.map costSavings).sum }

/-- A 17-column row whose ApprovedBudgetForContract field (index 11) is
descriptive text rather than a number, and whose ContractCost (index 12)
is numeric. -/
def c1fields : List String :=
  ["", "", "", "", "", "", "P1", "", "", "", "", "clustered with 101", "500", "", "", "", ""]

/-- A concrete record with funding year 2020. -/
def c4p : FloodProject :=
  { projectId := "B", contractCost := 1, approvedBudget := 2, startDate := some 0,
    completionDate := some 1, fundingYear := some 2020, region := "Region I",
    mainIsland := "Luzon", contractorName := "K2", typeOfWork := "Dike" }

/-- A concrete delay-present record used for contractor groups. -/
def c5base : FloodProject :=
  { projectId := "C", contractCost := 10, approvedBudget := 12, startDate := some 0,
    completionDate := some 5, fundingYear := some 2022, region := "Region II",
    mainIsland := "Luzon", contractorName := "Same Contractor", typeOfWork := "Dike" }

/-- A contractor group of exactly 4 delay-present projects. -/
def c5group4 : List FloodProject := List.replicate 4 c5base

/-- The same contractor group with a 5th project added. -/
def c5group5 : List FloodProject := List.replicate 5 c5base

/-- A record without completion data (no dates), approved budget 100. -/
def c6p1 : FloodProject :=
  { projectId := "A1", contractCost := 0, approvedBudget := 100, startDate := none,
    completionDate := none, fundingYear := some 2022, region := "Region X",
    mainIsland := "Mindanao", contractorName := "K", typeOfWork := "Dike" }

/-- A delay-present record in the same (region, mainIsland) group as
`c6p1`, approved budget 60. -/
def c6p2 : FloodProject :=
  { projectId := "A2", contractCost := 10, approvedBudget := 60, startDate := some 0,
    completionDate := some 10, fundingYear := some 2022, region := "Region X",
    mainIsland := "Mindanao", contractorName := "K", typeOfWork := "Dike" }

/-- Concrete annual-trend grouped data: a 2021 "Dike" baseline with average
savings 1000, a 2022 "Dike" group with average savings 1200, and a 2022
"Slope" group (no 2021 baseline for "Slope"). -/
def c7groups : List ((ℤ × String) × TrendMetrics) :=
  [((2021, "Dike"), ⟨3, 1000, 0⟩), ((2022, "Dike"), ⟨4, 1200, 0⟩),
   ((2022, "Slope"), ⟨2, 800, 0⟩)]

/-- The same concrete data as rows of the JavaScript report 3. -/
def c7rows : List JsTrendRow :=
  [⟨2021, "Dike", 1000⟩, ⟨2022, "Dike", 1200⟩, ⟨2022, "Slope", 800⟩]

/-- Projection fact: the `totalbudget` entry a regional group's metrics
carry is the sum of `approvedBudget` over the group's record list. -/
theorem regionMetrics_totalBudget (g : List FloodProject) :
    (regionMetrics g).totalBudget = (g.map (fun p => p.approvedBudget)).sum := rfl

/-- The strict ingestion of the full pipeline: a row whose comma-stripped
ApprovedBudgetForContract or ContractCost fails to parse is rejected —
the accepted list is unchanged and the rejection counter increments by
exactly 1 (this also covers rows that are additionally short). -/
theorem processLine_rejects_bad_money (st : IngestState) (fields : List String)
    (hbad : toDoubleOrNull (stripCommas (fields.getD 11 "")) = none ∨
            toDoubleOrNull (stripCommas (fields.getD 12 "")) = none) :
    processLine st (CsvLine.row fields) =
      { st with errorRowCount := st.errorRowCount + 1 } := by
  rcases hbad with hbad | hbad
  · simp only [processLine, hbad]
    split
    · rfl
    · rfl
  · simp only [processLine, hbad]
    split
    · rfl
    · cases toDoubleOrNull (stripCommas (fields.getD 11 "")) <;> rfl

/-- Witness instance for the strict rejection fact, at the concrete bad
row `c1fields`. -/
theorem processLine_rejects_bad_money_witness :
    processLine ⟨[], 0⟩ (CsvLine.row c1fields) =
      { (⟨[], 0⟩ : IngestState) with errorRowCount := 0 + 1 } :=
  processLine_rejects_bad_money ⟨[], 0⟩ c1fields (Or.inl (by rfl))

/-- Claim C1 (code at the failing input): on a 17-column row whose
approved-budget field is the non-numeric text "clustered with 101", the
first-version ingestion (part_000 lines 62-92, `?: 0.0` at lines 74-75)
accepts the row with approvedBudget defaulted to 0, while the full
pipeline's strict ingestion (part_000 lines 250-257) rejects it: no record
is produced and the rejection counter increments by exactly 1. -/
theorem c1_default_zero_eval :
    processLineV1 [] (CsvLine.row c1fields) =
      [{ projectId := "P1", contractCost := 500, approvedBudget := 0,
         startDate := none, completionDate := none }] ∧
    processLine ⟨[], 0⟩ (CsvLine.row c1fields) = ⟨[], 1⟩ := by
  constructor
  · rfl
  · rfl

/-- Claim C2 (code at the failing input): the JavaScript
`costSavingsMedian` returns 35 on the group [10, 20, 30, 40] (claimed
median: 25) and NaN on the empty group (claimed median: 0), while the
Kotlin `median` agrees with the claim on the same inputs. -/
theorem c2_median_eval :
    costSavingsMedian [10, 20, 30, 40] = some 35 ∧
    costSavingsMedian ([] : List ℚ) = none ∧
    kotlinMedian [10, 20, 30, 40] = 25 ∧
    kotlinMedian [10, 20, 30] = 20 ∧
    kotlinMedian ([] : List ℚ) = 0 := by
  refine ⟨by norm_num [costSavingsMedian], by norm_num [costSavingsMedian], ?_, ?_, by rfl⟩
  · norm_num [kotlinMedian, List.insertionSort, List.orderedInsert]
    decide
  · norm_num [kotlinMedian, List.insertionSort, List.orderedInsert]
    decide

/-- Claim C3 (code at the failing input): the JavaScript `EfficiencyScore`
divides by a zero average delay (non-finite result) where the claim says
100 or 0, and returns 20000 — far outside [0, 100] — for median savings
200 at average delay 1; the Kotlin score satisfies the claim on the same
inputs. -/
theorem c3_efficiency_eval :
    jsEfficiencyScore 500 0 = none ∧
    jsEfficiencyScore (-100) 0 = none ∧
    jsEfficiencyScore 200 1 = some 20000 ∧
    kotlinEfficiencyScore 500 0 = 100 ∧
    kotlinEfficiencyScore (-100) 0 = 0 ∧
    kotlinEfficiencyScore 200 1 = 100 := by
  refine ⟨by rfl, by rfl, ?_, by rfl, by rfl, ?_⟩
  · norm_num [jsEfficiencyScore]
  · norm_num [kotlinEfficiencyScore, coerceIn]

/-- Claim C4 (code at the failing input): the MCO2_JavaScript.js load
filter admits a funding-year-2020 row and a row with a non-numeric funding
year (it only skips `=== 2024`), while the Kotlin `filterProjectsByYear`
with the default range excludes the 2020 record, as the claim states. -/
theorem c4_year_filter_eval :
    jsYearKept (some 2020) = true ∧
    jsYearKept none = true ∧
    filterProjectsByYear [c4p] 2021 2023 = [] ∧
    filterProjectsByYear [{ c4p with fundingYear := some 2022 }] 2021 2023 =
      [{ c4p with fundingYear := some 2022 }] := by
  exact ⟨rfl, rfl, rfl, rfl⟩

/-- Claim C5 (code at the failing input): the Kotlin contractor threshold
excludes a 4-project group and keeps a 5-project group, as the claim
states, but the JavaScript report 2 splices out every group with at most
5 projects, so the same 5-project group is excluded there. -/
theorem c5_min_projects_eval :
    contractorMetrics 5 c5group4 = none ∧
    (contractorMetrics 5 c5group5).isSome = true ∧
    jsContractorKept 4 = false ∧
    jsContractorKept 5 = false ∧
    jsContractorKept 6 = true := by
  exact ⟨rfl, rfl, rfl, rfl, rfl⟩

/-- Claim C6 (counterexample): with a delay-absent record of approved
budget 100 and a delay-present record of approved budget 60 in the same
(region, mainIsland), the regional report's totalBudget for that group is
60 — the sum over the delay-present records only — not the 160 the claim
asserts (the sum over all records of the group including delay-absent
ones). -/
theorem c6_total_budget_counterexample :
    (regionalGroupedData [c6p1, c6p2]).map (fun kg => (kg.1, kg.2.totalBudget)) =
      [(("Region X", "Mindanao"), 60)] ∧
    (([c6p1, c6p2].filter
        (fun p => decide (p.region = "Region X" ∧ p.mainIsland = "Mindanao"))).map
      (fun p => p.approvedBudget)).sum = 160 ∧
    (60 : ℚ) ≠ 160 := by
  refine ⟨?_, ?_, by norm_num⟩
  · norm_num [regionalGroupedData, regionMetrics, groupByKey, dedupFirst, hasDelay,
      completionDelayDays, c6p1, c6p2]
  · norm_num [c6p1, c6p2]

/-- Claim C6 (amended): the regional report groups only the records with a
present completionDelayDays; each report row's totalBudget is the sum of
approvedBudget over exactly the delay-present records with that row's
(region, mainIsland) key, so records lacking completion data contribute to
no row's totalBudget (nor to its delay metrics). -/
theorem c6_total_budget_amended (projects : List FloodProject)
    (kg : (String × String) × RegionMetrics)
    (h : kg ∈ generateRegionalEfficiencyReport projects) :
    kg.2.totalBudget =
      (((projects.filter hasDelay).filter
          (fun p => decide ((p.region, p.mainIsland) = kg.1))).map
        (fun p => p.approvedBudget)).sum := by
  have hmem : kg ∈ regionalGroupedData projects := by
    unfold generateRegionalEfficiencyReport at h
    exact (List.perm_insertionSort _ _).mem_iff.mp h
  unfold regionalGroupedData groupByKey at hmem
  simp only [List.mem_map] at hmem
  obtain ⟨pair, ⟨k, hk, rfl⟩, rfl⟩ := hmem
  exact regionMetrics_totalBudget _

/-- Witness for the amended Claim C6, at the one-record input `[c6p2]`. -/
theorem c6_total_budget_amended_witness :
    ((("Region X", "Mindanao"), regionMetrics [c6p2]) :
        (String × String) × RegionMetrics).2.totalBudget =
      ((([c6p2].filter hasDelay).filter
          (fun p => decide ((p.region, p.mainIsland) =
            ((("Region X", "Mindanao"), regionMetrics [c6p2]) :
              (String × String) × RegionMetrics).1))).map
        (fun p => p.approvedBudget)).sum :=
  c6_total_budget_amended [c6p2] (("Region X", "Mindanao"), regionMetrics [c6p2]) (by
    unfold generateRegionalEfficiencyReport regionalGroupedData groupByKey dedupFirst
    simp [c6p2, hasDelay, completionDelayDays, List.insertionSort])

/-- The regional report never looks at delay-absent records at all:
running it on the delay-present subset gives the same report. -/
theorem regional_report_ignores_delay_absent (projects : List FloodProject) :
    generateRegionalEfficiencyReport projects =
      generateRegionalEfficiencyReport (projects.filter hasDelay) := by
  unfold generateRegionalEfficiencyReport regionalGroupedData
  rw [List.filter_filter]
  simp

/-- Claim C7 (code at the failing input): on a 2021 "Dike" baseline with
average savings 1000, a 2022 "Dike" group with 1200 gets yoyChange 20 in
both implementations, but for a 2022 "Slope" group with no 2021 baseline
the Kotlin pipeline emits 0 as the claim states while the JavaScript
report 3 leaves the YoYChange property unset (an absent field). -/
theorem c7_yoy_eval :
    kotlinYoyChange (yearBaselines c7groups) 2022 "Dike" 1200 = 20 ∧
    kotlinYoyChange (yearBaselines c7groups) 2022 "Slope" 800 = 0 ∧
    kotlinYoyChange (yearBaselines c7groups) 2021 "Dike" 1000 = 0 ∧
    jsYoYChange c7rows ⟨2022, "Dike", 1200⟩ = some 20 ∧
    jsYoYChange c7rows ⟨2022, "Slope", 800⟩ = none := by
  refine ⟨?_, by rfl, by rfl, ?_, by rfl⟩
  · norm_num [kotlinYoyChange, yearBaselines, c7groups, List.find?]
  · norm_num [jsYoYChange, c7rows, List.find?, List.filter]

/-- Claim C8 (code at the failing input): for a surviving contractor group
with average delay 180, total savings 45 and total cost 90, the JavaScript
report 2 publishes a reliability index of -50 (its delay factor is not
clamped and there is no lower cap), while the Kotlin computation — whose
delay factor at 180 days is 0 — yields the claimed clamped index 0. -/
theorem c8_reliability_eval :
    jsReliabilityIndex 180 45 90 = some (-50) ∧
    kotlinDelayFactor 180 = 0 ∧
    kotlinSavingsFactor 45 90 = 1 / 2 ∧
    coerceIn (kotlinDelayFactor 180 * kotlinSavingsFactor 45 90 * 100) 0 100 = 0 := by
  refine ⟨?_, by norm_num [kotlinDelayFactor, coerceIn], ?_, ?_⟩
  · norm_num [jsReliabilityIndex]
  · norm_num [kotlinSavingsFactor]
  · norm_num [kotlinDelayFactor, kotlinSavingsFactor, coerceIn]

/-- Kotlin's delay factor `1 - (avg/90).coerceIn(0,1)` coincides with the
claim's formula `clamp(1 - avg/90, 0, 1)` at every average delay. -/
theorem kotlinDelayFactor_eq_clamp (avg : ℚ) :
    kotlinDelayFactor avg = coerceIn (1 - avg / 90) 0 1 := by
  unfold kotlinDelayFactor coerceIn
  rcases le_total (avg / 90) 0 with h | h <;> rcases le_total 1 (avg / 90) with h2 | h2 <;>
    simp [min_def, max_def] <;> split_ifs <;> linarith

/-- A clamped value lies between its bounds. -/
theorem coerceIn_bounds (x lo hi : ℚ) (h : lo ≤ hi) :
    lo ≤ coerceIn x lo hi ∧ coerceIn x lo hi ≤ hi := by
  constructor
  · exact le_max_left _ _
  · exact max_le h (min_le_left _ _)

/-- Witness instance for the clamp bounds at a concrete input. -/
theorem coerceIn_bounds_witness :
    (0 : ℚ) ≤ coerceIn 250 0 100 ∧ coerceIn 250 0 100 ≤ 100 :=
  coerceIn_bounds 250 0 100 (by norm_num)

/-- The Kotlin efficiency score always lies in [0, 100]. -/
theorem kotlinEfficiencyScore_bounds (m d : ℚ) :
    0 ≤ kotlinEfficiencyScore m d ∧ kotlinEfficiencyScore m d ≤ 100 := by
  unfold kotlinEfficiencyScore
  split
  · split <;> norm_num
  · exact coerceIn_bounds _ _ _ (by norm_num)

/-- Every Kotlin contractor group surviving the threshold carries a
reliability index in [0, 100]. -/
theorem contractorMetrics_reliability_bounds (minProjects : ℕ)
    (g : List FloodProject) (m : ContractorMetrics)
    (h : contractorMetrics minProjects g = some m) :
    0 ≤ m.reliabilityIndex ∧ m.reliabilityIndex ≤ 100 := by
  simp only [contractorMetrics] at h
  split at h
  · simp at h
  · simp only [Option.some.injEq] at h
    subst h
    constructor
    · exact le_max_left _ _
    · exact max_le (by norm_num) (min_le_left _ _)

/-- Witness instance for the reliability bounds, at the concrete
5-project group `c5group5`. -/
theorem contractorMetrics_reliability_bounds_witness :
    0 ≤ ((contractorMetrics 5 c5group5).getD
          ⟨0, 0, 0, 0, 0, ""⟩).reliabilityIndex ∧
    ((contractorMetrics 5 c5group5).getD
          ⟨0, 0, 0, 0, 0, ""⟩).reliabilityIndex ≤ 100 :=
  contractorMetrics_reliability_bounds 5 c5group5 _ rfl

/-- Kotlin year-range membership: a record passes `filterProjectsByYear`
exactly when it is an input record with a present funding year inside the
inclusive range. -/
theorem filterProjectsByYear_mem (ps : List FloodProject) (lo hi : ℤ)
    (p : FloodProject) :
    p ∈ filterProjectsByYear ps lo hi ↔
      p ∈ ps ∧ ∃ y, p.fundingYear = some y ∧ lo ≤ y ∧ y ≤ hi := by
  unfold filterProjectsByYear
  rw [List.mem_filter]
  cases hy : p.fundingYear <;> simp [hy]

/-- Each non-blank processed line moves exactly one row into either the
accepted list or the rejection counter; blank lines move nothing. -/
theorem processLine_step (st : IngestState) (l : CsvLine) :
    (processLine st l).projects.length + (processLine st l).errorRowCount =
      st.projects.length + st.errorRowCount +
        (match l with | CsvLine.blank => 0 | CsvLine.row _ => 1) := by
  cases l with
  | blank => simp [processLine]
  | row fields =>
    simp only [processLine]
    split
    · simp
      omega
    · split <;> simp <;> omega

/-- Accumulated accounting of the ingestion fold: accepted plus rejected
plus blank-skipped equals lines processed. -/
theorem foldl_accounting (ls : List CsvLine) (st : IngestState) :
    ((ls.foldl processLine st).projects.length +
        (ls.foldl processLine st).errorRowCount) + countBlank ls =
      (st.projects.length + st.errorRowCount) + ls.length := by
  induction ls generalizing st with
  | nil => simp [countBlank]
  | cons l ls ih =>
    have hstep := processLine_step st l
    have := ih (processLine st l)
    simp only [List.foldl_cons, countBlank, List.countP_cons] at *
    cases l <;> simp at hstep ⊢ <;> omega

/-- Claim C9: after ingesting any file, the count of accepted records plus
the rejection count plus the number of blank data lines skipped equals the
total rows read (the line count excluding the header). -/
theorem c9_ingestion_accounting (lines : List CsvLine) :
    (readProjectsFromFile lines).projects.length +
        (readProjectsFromFile lines).errorRowCount + countBlank (lines.drop 1) =
      (readProjectsFromFile lines).totalRowsRead := by
  unfold readProjectsFromFile
  split
  · rename_i h
    have : lines.drop 1 = [] := by
      apply List.drop_eq_nil_of_le
      omega
    simp [this, countBlank]
  · rename_i h
    have hacc := foldl_accounting (lines.drop 1) ⟨[], 0⟩
    simp only [List.length_drop, List.length_nil] at hacc
    dsimp only
    omega

/-- Claim C10: the summary's global average delay is the NaN marker
(`none`) — not 0 and not an omitted field — exactly when the filtered set
has no record with both dates present, and otherwise it is the arithmetic
mean of the delay-present records' completionDelayDays. -/
theorem c10_global_avg_delay (allProjects filteredProjects : List FloodProject) :
    (generateSummaryJson allProjects filteredProjects).globalAvgDelay =
      (if filteredProjects.filter hasDelay = [] then none
       else some (((filteredProjects.filter hasDelay).map delayQ).sum
                  / (((filteredProjects.filter hasDelay).map delayQ).length : ℚ))) := by
  unfold generateSummaryJson kotlinAverage
  dsimp only
  split
  · rename_i hnil
    rw [List.map_eq_nil_iff] at hnil
    simp [hnil]
  · rename_i hne
    rw [List.map_eq_nil_iff] at hne
    simp [hne]
